import Mathlib

/-!
Shallow embedding of the layout and redraw core of a tiling window manager
(src/src/main.c). Machine `uint32_t` values are modelled as `Nat`; every
theorem below carries hypotheses (screen at least 64×64 pixels, counts within
the fixed capacity) under which no C subtraction underflows and no product
overflows 2^32, so `Nat` arithmetic and the C `uint32_t` arithmetic coincide
on the whole domain the theorems speak about.
-/

/- Constants (main.c lines 3-13). -/

def MAX_WINDOWS_PER_WORKSPACE : Nat := 6

def WORKSPACE_COUNT : Nat := 4

def TOP_BAR_HEIGHT : Nat := 24

def DEFAULT_GAP_SIZE : Nat := 4

def DEFAULT_BORDER_SIZE : Nat := 2

def FOCUSED_BORDER_MULTIPLIER : Nat := 3

def SYMBOL_WIDTH : Nat := 8

def SYMBOL_HEIGHT : Nat := 8

def MASTER_RATIO_DEFAULT : Nat := 50

def MASTER_RATIO_MASTER_STACK : Nat := 60

/- Colors (ARGB). -/

def COLOR_BORDER_NORMAL : Nat := 0x928374

def COLOR_WINDOW_BG : Nat := 0x282828

def COLOR_BAR_BG : Nat := 0x1d2021

def COLOR_EMPTY_DESKTOP : Nat := 0x3c3836

/-- Layout types (`layout_type_t`). `LAYOUT_COUNT` is kept separately as the
numeric cycle length. -/
inductive LayoutType where
  | horizontal
  | vertical
  | grid
  | fullscreen
  | master_stack
deriving DecidableEq, Repr

def LAYOUT_COUNT : Nat := 5

/-- The numeric value of each `layout_type_t` enumerator in the C source. -/
def layout_index : LayoutType → Nat
  | .horizontal => 0
  | .vertical => 1
  | .grid => 2
  | .fullscreen => 3
  | .master_stack => 4

/-- Inverse of `layout_index` on 0..4 (the C enum cast back from a number). -/
def layout_of_index : Nat → LayoutType
  | 0 => .horizontal
  | 1 => .vertical
  | 2 => .grid
  | 3 => .fullscreen
  | _ => .master_stack

/-- Window metadata (`window_t`). -/
structure Window where
  title : String
  pid : Nat
  is_open : Bool
deriving DecidableEq, Repr

/-- Layout configuration (`layout_config_t`). -/
structure LayoutConfig where
  type : LayoutType
  gap_size : Nat
  border_size : Nat
  border_color : Nat
  master_ratio : Nat
deriving DecidableEq, Repr

/-- Calculated window position on screen (`window_position_t`). The `pid`
field of the C struct is bookkeeping attached at draw time and carries no
geometric information; it is not modelled. -/
structure WindowPos where
  x : Nat
  y : Nat
  width : Nat
  height : Nat
deriving DecidableEq, Repr

def zeroWindowPos : WindowPos := ⟨0, 0, 0, 0⟩

/-- Predefined layouts (`DEFAULT_LAYOUTS`). -/
def DEFAULT_LAYOUTS : LayoutType → LayoutConfig
  | .horizontal =>
    { type := .horizontal, gap_size := DEFAULT_GAP_SIZE,
      border_size := DEFAULT_BORDER_SIZE, border_color := COLOR_BORDER_NORMAL,
      master_ratio := MASTER_RATIO_DEFAULT }
  | .vertical =>
    { type := .vertical, gap_size := DEFAULT_GAP_SIZE,
      border_size := DEFAULT_BORDER_SIZE, border_color := COLOR_BORDER_NORMAL,
      master_ratio := MASTER_RATIO_DEFAULT }
  | .grid =>
    { type := .grid, gap_size := DEFAULT_GAP_SIZE,
      border_size := DEFAULT_BORDER_SIZE, border_color := COLOR_BORDER_NORMAL,
      master_ratio := MASTER_RATIO_DEFAULT }
  | .fullscreen =>
    { type := .fullscreen, gap_size := DEFAULT_GAP_SIZE,
      border_size := DEFAULT_BORDER_SIZE, border_color := COLOR_BORDER_NORMAL,
      master_ratio := MASTER_RATIO_DEFAULT }
  | .master_stack =>
    { type := .master_stack, gap_size := DEFAULT_GAP_SIZE,
      border_size := DEFAULT_BORDER_SIZE, border_color := COLOR_BORDER_NORMAL,
      master_ratio := MASTER_RATIO_MASTER_STACK }

/- Layout calculation functions (main.c lines 159-255). Each C loop writes
`positions[i]` from a closed formula in `i`, so each is embedded as the map
from the index `i` to the rectangle written there. `W` is `g_fb_width`. -/

def calculate_horizontal_layout (W count gap usable_height i : Nat) : WindowPos :=
  let window_width := (W - gap * (count + 1)) / count
  { x := gap + i * (window_width + gap)
    y := TOP_BAR_HEIGHT + gap
    width := window_width
    height := usable_height - gap }

def calculate_vertical_layout (W count gap usable_height i : Nat) : WindowPos :=
  let window_height := (usable_height - gap * (count + 1)) / count
  { x := gap
    y := TOP_BAR_HEIGHT + gap + i * (window_height + gap)
    width := W - gap * 2
    height := window_height }

def calculate_grid_layout (W count gap usable_height i : Nat) : WindowPos :=
  let cols := 2
  let rows := (count + 1) / 2
  let cell_width := (W - gap * (cols + 1)) / cols
  let cell_height := (usable_height - gap * (rows + 1)) / rows
  { x := gap + (i % cols) * (cell_width + gap)
    y := TOP_BAR_HEIGHT + gap + (i / cols) * (cell_height + gap)
    width := cell_width
    height := cell_height }

def calculate_fullscreen_layout (W _count gap usable_height _i : Nat) : WindowPos :=
  { x := gap
    y := TOP_BAR_HEIGHT + gap
    width := W - gap * 2
    height := usable_height - gap }

def calculate_master_stack_layout (W count gap usable_height master_ratio i : Nat) :
    WindowPos :=
  if count = 1 then
    { x := gap
      y := TOP_BAR_HEIGHT + gap
      width := W - gap * 2
      height := usable_height - gap }
  else
    let master_width := W * master_ratio / 100 - gap * 2
    let stack_width := W - master_width - gap * 3
    if i = 0 then
      { x := gap
        y := TOP_BAR_HEIGHT + gap
        width := master_width
        height := usable_height - gap }
    else
      let stack_count := count - 1
      let stack_height := (usable_height - gap * (stack_count + 1)) / stack_count
      { x := master_width + gap * 2
        y := TOP_BAR_HEIGHT + gap + (i - 1) * (stack_height + gap)
        width := stack_width
        height := stack_height }

/-- `compute_window_positions` (main.c lines 257-294). For `count = 0` the C
function returns after the zero-fill without computing geometry, matching the
empty list here; otherwise the switch dispatches on the layout type, and every
branch overwrites all `count` entries, making the zero-fill prelude dead. -/
def compute_window_positions (W H count : Nat) (config : LayoutConfig) :
    List WindowPos :=
  let gap := config.gap_size
  let usable_height := H - TOP_BAR_HEIGHT - gap
  (List.range count).map (fun i =>
    match config.type with
    | .horizontal => calculate_horizontal_layout W count gap usable_height i
    | .vertical => calculate_vertical_layout W count gap usable_height i
    | .grid => calculate_grid_layout W count gap usable_height i
    | .fullscreen => calculate_fullscreen_layout W count gap usable_height i
    | .master_stack =>
        calculate_master_stack_layout W count gap usable_height
          config.master_ratio i)

/- ------------------------------------------------------------------------
System state: the C globals (`g_workspaces`, `g_active_workspace`, the
framebuffer dimensions and the previous-frame snapshot `g_prev_*`). Drawing
is modelled by a trace of `fill_rect` calls: each drawing helper returns the
list of fills it issues, and `redraw_incremental` returns the updated state
together with its trace.
------------------------------------------------------------------------- -/

/-- One `fill_rect(x, y, width, height, color)` call. `fill_rect` itself
clips at the framebuffer bounds pixel by pixel; the trace records the call
arguments. -/
structure FillOp where
  x : Nat
  y : Nat
  width : Nat
  height : Nat
  color : Nat
deriving DecidableEq, Repr

/-- Workspace state (`workspace_t`). The fixed six-slot window array is
modelled as a total function on indices; only indices below
`MAX_WINDOWS_PER_WORKSPACE` are ever read or written by the operations. -/
structure Workspace where
  windows : Nat → Window
  window_count : Nat
  layout : LayoutConfig
  focused_window_index : Nat

/-- The global mutable state of main.c. -/
structure SysState where
  workspaces : Nat → Workspace
  active_workspace : Nat
  fb_width : Nat
  fb_height : Nat
  prev_positions : Nat → WindowPos
  prev_window_count : Nat
  prev_layout : LayoutType
  prev_focused : Nat

/-- The workspace the operations act on (`g_workspaces[g_active_workspace]`). -/
def activeWs (s : SysState) : Workspace :=
  s.workspaces s.active_workspace

/-- `string_length` (main.c lines 144-148). -/
def string_length (s : String) : Nat := s.length

/-- `draw_window_frame` (main.c lines 304-321): an interior fill plus four
border strips. -/
def draw_window_frame (p : WindowPos) (border_size border_color : Nat)
    (is_focused : Bool) : List FillOp :=
  let x := p.x
  let y := p.y
  let w := p.width
  let h := p.height
  let border := if is_focused then border_size * FOCUSED_BORDER_MULTIPLIER
    else border_size
  [⟨x + border, y + border, w - border * 2, h - border * 2, COLOR_WINDOW_BG⟩,
   ⟨x, y, w, border, border_color⟩,
   ⟨x, y + h - border, w, border, border_color⟩,
   ⟨x, y, border, h, border_color⟩,
   ⟨x + w - border, y, border, h, border_color⟩]

/-- `draw_empty_desktop_indicator` (main.c lines 323-332): one 8×8 block per
character of the text `~`. -/
def draw_empty_desktop_indicator (W H : Nat) : List FillOp :=
  let text := "~"
  let text_width := string_length text * SYMBOL_WIDTH
  let x := (W - text_width) / 2
  let y := H / 2 - SYMBOL_HEIGHT / 2
  (List.range (string_length text)).map (fun i =>
    ⟨x + i * SYMBOL_WIDTH, y, SYMBOL_WIDTH, SYMBOL_HEIGHT, COLOR_EMPTY_DESKTOP⟩)

/-- `redraw_incremental` (main.c lines 334-377). Returns the new global
state and the trace of `fill_rect` calls, in order: the structural branch
erases the previously drawn rectangles and repaints (or draws the empty
indicator); the focus-only branch redraws exactly the two affected frames;
otherwise nothing is drawn. -/
def redraw_incremental (s : SysState) : SysState × List FillOp :=
  let ws := activeWs s
  if ws.window_count ≠ s.prev_window_count ∨ ws.layout.type ≠ s.prev_layout then
    let eraseOps := (List.range s.prev_window_count).map (fun i =>
      let p := s.prev_positions i
      FillOp.mk p.x p.y p.width p.height COLOR_BAR_BG)
    if ws.window_count = 0 then
      ({ s with prev_window_count := ws.window_count,
                prev_layout := ws.layout.type,
                prev_focused := ws.focused_window_index },
       eraseOps ++ draw_empty_desktop_indicator s.fb_width s.fb_height)
    else
      let positions :=
        compute_window_positions s.fb_width s.fb_height ws.window_count ws.layout
      let frameOps := ((List.range ws.window_count).map (fun i =>
        draw_window_frame (positions.getD i zeroWindowPos)
          ws.layout.border_size ws.layout.border_color
          (i = ws.focused_window_index))).flatten
      ({ s with
          prev_positions := fun i =>
            if i < ws.window_count then positions.getD i zeroWindowPos
            else s.prev_positions i,
          prev_window_count := ws.window_count,
          prev_layout := ws.layout.type,
          prev_focused := ws.focused_window_index },
       eraseOps ++ frameOps)
  else if ws.focused_window_index ≠ s.prev_focused then
    let positions :=
      compute_window_positions s.fb_width s.fb_height ws.window_count ws.layout
    ({ s with prev_focused := ws.focused_window_index },
     draw_window_frame (positions.getD s.prev_focused zeroWindowPos)
       ws.layout.border_size ws.layout.border_color false ++
     draw_window_frame (positions.getD ws.focused_window_index zeroWindowPos)
       ws.layout.border_size ws.layout.border_color true)
  else
    (s, [])

/- ------------------------------------------------------------------------
Workspace and window management (main.c lines 383-446).
------------------------------------------------------------------------- -/

/-- The window slot contents set up by `initialize_workspaces` together with
the zero static initialization of `g_workspaces`. -/
def blankWindow : Window := { title := "", pid := 0, is_open := false }

/-- One workspace as left by `initialize_workspaces` (main.c lines 383-394):
empty, Grid default layout, focus 0. -/
def initWorkspace : Workspace :=
  { windows := fun _ => blankWindow
    window_count := 0
    layout := DEFAULT_LAYOUTS .grid
    focused_window_index := 0 }

/-- The global state right before the first `redraw_incremental` call in
`_start` (main.c lines 476-491): all workspaces initialized, active
workspace 0, snapshot count 0 / Grid / focus 0, snapshot rectangles from the
zeroed static array. -/
def startup_state (W H : Nat) : SysState :=
  { workspaces := fun _ => initWorkspace
    active_workspace := 0
    fb_width := W
    fb_height := H
    prev_positions := fun _ => zeroWindowPos
    prev_window_count := 0
    prev_layout := .grid
    prev_focused := 0 }

/-- `add_window_to_current_workspace` (main.c lines 396-407). -/
def add_window_to_current_workspace (s : SysState) (title : String) :
    SysState × List FillOp :=
  let ws := activeWs s
  if ws.window_count ≥ MAX_WINDOWS_PER_WORKSPACE then (s, [])
  else
    let win : Window := { title := title, pid := ws.window_count, is_open := true }
    let ws' : Workspace :=
      { ws with
          windows := Function.update ws.windows ws.window_count win
          window_count := ws.window_count + 1
          focused_window_index := ws.window_count + 1 - 1 }
    redraw_incremental
      { s with workspaces := Function.update s.workspaces s.active_workspace ws' }

/-- `close_current_window` (main.c lines 409-426). The C shift loop runs `i`
upward from the focused index, copying `windows[i] := windows[i+1]` before
`windows[i+1]` is itself overwritten, so slot `j` ends up holding the old
slot `j+1` exactly for `focused ≤ j < count-1`. -/
def close_current_window (s : SysState) : SysState × List FillOp :=
  let ws := activeWs s
  if ws.window_count = 0 then (s, [])
  else
    let focused := ws.focused_window_index
    let shifted : Nat → Window := fun j =>
      if focused ≤ j ∧ j < ws.window_count - 1 then ws.windows (j + 1)
      else ws.windows j
    let newCount := ws.window_count - 1
    let newFocus :=
      if newCount = 0 then 0
      else if focused ≥ newCount then newCount - 1
      else focused
    let ws' : Workspace :=
      { ws with
          windows := shifted
          window_count := newCount
          focused_window_index := newFocus }
    redraw_incremental
      { s with workspaces := Function.update s.workspaces s.active_workspace ws' }

/-- `cycle_focus` (main.c lines 428-438). -/
def cycle_focus (s : SysState) (direction : Int) : SysState × List FillOp :=
  let ws := activeWs s
  if ws.window_count = 0 then (s, [])
  else
    let newFocus :=
      if direction > 0 then
        (ws.focused_window_index + 1) % ws.window_count
      else
        (ws.focused_window_index + ws.window_count - 1) % ws.window_count
    let ws' : Workspace := { ws with focused_window_index := newFocus }
    redraw_incremental
      { s with workspaces := Function.update s.workspaces s.active_workspace ws' }

/-- The successor variant in the C cycle `(current + 1) % LAYOUT_COUNT`. -/
def next_layout (t : LayoutType) : LayoutType :=
  layout_of_index ((layout_index t + 1) % LAYOUT_COUNT)

/-- `cycle_layout` (main.c lines 440-446). -/
def cycle_layout (s : SysState) : SysState × List FillOp :=
  let ws := activeWs s
  let next := next_layout ws.layout.type
  let ws' : Workspace := { ws with layout := DEFAULT_LAYOUTS next }
  redraw_incremental
    { s with workspaces := Function.update s.workspaces s.active_workspace ws' }

/- ------------------------------------------------------------------------
Concrete fixture states used by the witness theorems below, and the
workspace invariant predicate.
------------------------------------------------------------------------- -/

def sampleTitle : String := "term"

/-- The workspace invariant of the spec: the focus index is in range whenever
the workspace is non-empty, and the count never exceeds the capacity. -/
def WSInv (ws : Workspace) : Prop :=
  (0 < ws.window_count → ws.focused_window_index < ws.window_count) ∧
  ws.window_count ≤ MAX_WINDOWS_PER_WORKSPACE

/-- A three-window workspace with focus at index 1, with distinct window
identifiers, used to witness C5. -/
def wsThree : Workspace :=
  { windows := fun j => { title := sampleTitle, pid := j, is_open := true }
    window_count := 3
    layout := DEFAULT_LAYOUTS .grid
    focused_window_index := 1 }

def sThree : SysState :=
  { workspaces := fun _ => wsThree
    active_workspace := 0
    fb_width := 640
    fb_height := 480
    prev_positions := fun _ => zeroWindowPos
    prev_window_count := 3
    prev_layout := .grid
    prev_focused := 1 }

/-- A full six-window workspace used to witness C8. -/
def wsFull : Workspace :=
  { windows := fun j => { title := sampleTitle, pid := j, is_open := true }
    window_count := 6
    layout := DEFAULT_LAYOUTS .grid
    focused_window_index := 5 }

def sFull : SysState :=
  { workspaces := fun _ => wsFull
    active_workspace := 0
    fb_width := 640
    fb_height := 480
    prev_positions := fun _ => zeroWindowPos
    prev_window_count := 6
    prev_layout := .grid
    prev_focused := 5 }

/-- A two-window workspace whose focus moved from snapshot index 0 to 1,
used to witness C4. -/
def wsTwo : Workspace :=
  { windows := fun j => { title := sampleTitle, pid := j, is_open := true }
    window_count := 2
    layout := DEFAULT_LAYOUTS .grid
    focused_window_index := 1 }

def sTwo : SysState :=
  { workspaces := fun _ => wsTwo
    active_workspace := 0
    fb_width := 640
    fb_height := 480
    prev_positions := fun _ => zeroWindowPos
    prev_window_count := 2
    prev_layout := .grid
    prev_focused := 0 }

/-- A one-window workspace over an empty snapshot, used to witness C10. -/
def wsOne : Workspace :=
  { windows := fun j => { title := sampleTitle, pid := j, is_open := true }
    window_count := 1
    layout := DEFAULT_LAYOUTS .grid
    focused_window_index := 0 }

def sOne : SysState :=
  { workspaces := fun _ => wsOne
    active_workspace := 0
    fb_width := 640
    fb_height := 480
    prev_positions := fun _ => zeroWindowPos
    prev_window_count := 0
    prev_layout := .grid
    prev_focused := 0 }

/- ------------------------------------------------------------------------
Helper lemmas shared by several developments below, and two sanity checks
of the layout engine on concrete inputs.
------------------------------------------------------------------------- -/

example :
    compute_window_positions 640 480 2 (DEFAULT_LAYOUTS .master_stack) =
      [⟨4, 28, 376, 448⟩, ⟨384, 28, 252, 444⟩] := by decide

example :
    compute_window_positions 640 480 5 (DEFAULT_LAYOUTS .grid) =
      [⟨4, 28, 314, 145⟩, ⟨322, 28, 314, 145⟩, ⟨4, 177, 314, 145⟩,
       ⟨322, 177, 314, 145⟩, ⟨4, 326, 314, 145⟩] := by decide


theorem redraw_incremental_workspaces (s : SysState) :
    (redraw_incremental s).1.workspaces = s.workspaces := by
  unfold redraw_incremental
  dsimp only
  split_ifs <;> rfl

theorem redraw_incremental_active (s : SysState) :
    (redraw_incremental s).1.active_workspace = s.active_workspace := by
  unfold redraw_incremental
  dsimp only
  split_ifs <;> rfl

theorem activeWs_redraw_update (s : SysState) (ws' : Workspace) :
    activeWs (redraw_incremental
      { s with workspaces := Function.update s.workspaces s.active_workspace ws' }).1
      = ws' := by
  unfold activeWs
  rw [redraw_incremental_workspaces, redraw_incremental_active]
  simp

theorem getD_range_map {α : Type} (f : Nat → α) (d : α) (n i : Nat) (h : i < n) :
    ((List.range n).map f).getD i d = f i := by
  rw [List.getD_eq_getElem?_getD, List.getElem?_map, List.getElem?_range h]
  rfl

theorem master_stack_getD (W H count i : Nat) (h : i < count) :
    (compute_window_positions W H count (DEFAULT_LAYOUTS .master_stack)).getD i
        zeroWindowPos =
      calculate_master_stack_layout W count DEFAULT_GAP_SIZE
        (H - TOP_BAR_HEIGHT - DEFAULT_GAP_SIZE) MASTER_RATIO_MASTER_STACK i := by
  simp only [compute_window_positions]
  rw [getD_range_map _ _ _ _ h]
  rfl

theorem grid_getD (W H count i : Nat) (h : i < count) :
    (compute_window_positions W H count (DEFAULT_LAYOUTS .grid)).getD i
        zeroWindowPos =
      calculate_grid_layout W count DEFAULT_GAP_SIZE
        (H - TOP_BAR_HEIGHT - DEFAULT_GAP_SIZE) i := by
  simp only [compute_window_positions]
  rw [getD_range_map _ _ _ _ h]
  rfl

theorem master_stack_width_master (W count gap uh r : Nat) (h : ¬ count = 1) :
    (calculate_master_stack_layout W count gap uh r 0).width =
      W * r / 100 - gap * 2 := by
  simp only [calculate_master_stack_layout]
  rw [if_neg h]
  simp

theorem master_stack_width_stack (W count gap uh r i : Nat) (h1 : ¬ count = 1)
    (h2 : ¬ i = 0) :
    (calculate_master_stack_layout W count gap uh r i).width =
      W - (W * r / 100 - gap * 2) - gap * 3 := by
  simp only [calculate_master_stack_layout]
  rw [if_neg h1, if_neg h2]

/- ------------------------------------------------------------------------
Claims about the layout engine.
------------------------------------------------------------------------- -/

set_option maxHeartbeats 3000000 in
/-- C1: for every window count from 1 to the capacity 6 and every of the five
layout variants (with their compiled-in configurations: gap 4, top bar 24),
`compute_window_positions` yields exactly `count` rectangles, each with
positive width and height, contained in `[0, W)` horizontally and in
`[TOP_BAR_HEIGHT, H)` vertically, for any screen of at least 64×64 pixels. -/
theorem C1_compute_positions_bounds (W H count : Nat) (t : LayoutType)
    (hW : 64 ≤ W) (hH : 64 ≤ H) (hc1 : 1 ≤ count)
    (hc6 : count ≤ MAX_WINDOWS_PER_WORKSPACE) :
    (compute_window_positions W H count (DEFAULT_LAYOUTS t)).length = count ∧
    ∀ p ∈ compute_window_positions W H count (DEFAULT_LAYOUTS t),
      0 < p.width ∧ 0 < p.height ∧ p.x + p.width ≤ W ∧
      TOP_BAR_HEIGHT ≤ p.y ∧ p.y + p.height ≤ H := by
  refine ⟨by simp [compute_window_positions], ?_⟩
  intro p hp
  simp only [compute_window_positions, List.mem_map, List.mem_range] at hp
  obtain ⟨i, hi, rfl⟩ := hp
  simp only [MAX_WINDOWS_PER_WORKSPACE] at hc6
  cases t <;> interval_cases count <;> interval_cases i <;>
    simp [DEFAULT_LAYOUTS, calculate_horizontal_layout, calculate_vertical_layout,
      calculate_grid_layout, calculate_fullscreen_layout,
      calculate_master_stack_layout, TOP_BAR_HEIGHT, DEFAULT_GAP_SIZE,
      MASTER_RATIO_DEFAULT, MASTER_RATIO_MASTER_STACK] <;>
    omega

/-- C1 witness: the theorem evaluated at a 640×480 screen, Grid layout,
four windows. -/
theorem C1_compute_positions_bounds_witness :
    (compute_window_positions 640 480 4 (DEFAULT_LAYOUTS .grid)).length = 4 ∧
    ∀ p ∈ compute_window_positions 640 480 4 (DEFAULT_LAYOUTS .grid),
      0 < p.width ∧ 0 < p.height ∧ p.x + p.width ≤ 640 ∧
      TOP_BAR_HEIGHT ≤ p.y ∧ p.y + p.height ≤ 480 :=
  C1_compute_positions_bounds 640 480 4 .grid (by decide) (by decide)
    (by decide) (by decide)

/-- C3: Master-Stack with one window spans the full usable area; with
`2 ≤ count ≤ 6` the master width is `W·ratio/100 − 2·gap` (ratio 60, gap 4)
and master width + stack width + 3·gap = W exactly, for every stack window. -/
theorem C3_master_stack_widths (W H count : Nat) (hW : 64 ≤ W) (hH : 64 ≤ H) :
    compute_window_positions W H 1 (DEFAULT_LAYOUTS .master_stack) =
      [{ x := DEFAULT_GAP_SIZE, y := TOP_BAR_HEIGHT + DEFAULT_GAP_SIZE,
         width := W - 2 * DEFAULT_GAP_SIZE,
         height := (H - TOP_BAR_HEIGHT - DEFAULT_GAP_SIZE) - DEFAULT_GAP_SIZE }] ∧
    (2 ≤ count → count ≤ MAX_WINDOWS_PER_WORKSPACE →
      ((compute_window_positions W H count
          (DEFAULT_LAYOUTS .master_stack)).getD 0 zeroWindowPos).width
        = W * MASTER_RATIO_MASTER_STACK / 100 - 2 * DEFAULT_GAP_SIZE ∧
      ∀ i, 1 ≤ i → i < count →
        ((compute_window_positions W H count
            (DEFAULT_LAYOUTS .master_stack)).getD 0 zeroWindowPos).width +
        ((compute_window_positions W H count
            (DEFAULT_LAYOUTS .master_stack)).getD i zeroWindowPos).width +
        3 * DEFAULT_GAP_SIZE = W) := by
  constructor
  · simp only [compute_window_positions, DEFAULT_LAYOUTS, List.range_succ,
      List.range_zero, List.nil_append, List.map_cons, List.map_nil]
    simp [calculate_master_stack_layout, WindowPos.mk.injEq, Nat.mul_comm]
  · intro h2 h6
    simp only [MAX_WINDOWS_PER_WORKSPACE] at h6
    constructor
    · rw [master_stack_getD W H count 0 (by omega),
        master_stack_width_master W count _ _ _ (by omega)]
      simp only [DEFAULT_GAP_SIZE, MASTER_RATIO_MASTER_STACK]
    · intro i h1i hic
      rw [master_stack_getD W H count 0 (by omega),
        master_stack_getD W H count i hic,
        master_stack_width_master W count _ _ _ (by omega),
        master_stack_width_stack W count _ _ _ i (by omega) (by omega)]
      simp only [DEFAULT_GAP_SIZE, MASTER_RATIO_MASTER_STACK]
      omega

/-- C3 witness: three windows on a 640×480 screen; master width 376 and the
width identity for stack window 1. -/
theorem C3_master_stack_widths_witness :
    ((compute_window_positions 640 480 3
        (DEFAULT_LAYOUTS .master_stack)).getD 0 zeroWindowPos).width +
    ((compute_window_positions 640 480 3
        (DEFAULT_LAYOUTS .master_stack)).getD 1 zeroWindowPos).width +
    3 * DEFAULT_GAP_SIZE = 640 :=
  ((C3_master_stack_widths 640 480 3 (by decide) (by decide)).2
    (by decide) (by decide)).2 1 (by decide) (by decide)

/-- C6: the Grid layout places window `i` in column `i mod 2`, row `i div 2`,
with 2 columns and `(count+1)/2` (that is, `ceil(count/2)`) rows, cell sizes
divided by the full row count; for `count = 5` index 4 sits in a row of its
own (its `y` differs from every other window's). -/
theorem C6_grid_layout (W H count : Nat) (hW : 64 ≤ W) (hH : 64 ≤ H)
    (hc1 : 1 ≤ count) (hc6 : count ≤ MAX_WINDOWS_PER_WORKSPACE) :
    (∀ i, i < count →
      (compute_window_positions W H count (DEFAULT_LAYOUTS .grid)).getD i
          zeroWindowPos =
        { x := DEFAULT_GAP_SIZE + (i % 2) *
            ((W - DEFAULT_GAP_SIZE * 3) / 2 + DEFAULT_GAP_SIZE),
          y := TOP_BAR_HEIGHT + DEFAULT_GAP_SIZE + (i / 2) *
            (((H - TOP_BAR_HEIGHT - DEFAULT_GAP_SIZE) -
                DEFAULT_GAP_SIZE * ((count + 1) / 2 + 1)) / ((count + 1) / 2) +
              DEFAULT_GAP_SIZE),
          width := (W - DEFAULT_GAP_SIZE * 3) / 2,
          height := ((H - TOP_BAR_HEIGHT - DEFAULT_GAP_SIZE) -
            DEFAULT_GAP_SIZE * ((count + 1) / 2 + 1)) / ((count + 1) / 2) }) ∧
    (count = 5 → ∀ j, j < 4 →
      ((compute_window_positions W H count (DEFAULT_LAYOUTS .grid)).getD j
          zeroWindowPos).y ≠
      ((compute_window_positions W H count (DEFAULT_LAYOUTS .grid)).getD 4
          zeroWindowPos).y) := by
  constructor
  · intro i hi
    rw [grid_getD W H count i hi]
    rfl
  · intro h5
    subst h5
    intro j hj
    rw [grid_getD W H 5 j (by omega), grid_getD W H 5 4 (by omega)]
    simp only [calculate_grid_layout, TOP_BAR_HEIGHT, DEFAULT_GAP_SIZE]
    interval_cases j <;> omega

/-- C6 witness: on a 640×480 screen with five windows, window 0 is not in
window 4's row. -/
theorem C6_grid_layout_witness :
    ((compute_window_positions 640 480 5 (DEFAULT_LAYOUTS .grid)).getD 0
        zeroWindowPos).y ≠
    ((compute_window_positions 640 480 5 (DEFAULT_LAYOUTS .grid)).getD 4
        zeroWindowPos).y :=
  (C6_grid_layout 640 480 5 (by decide) (by decide) (by decide) (by decide)).2
    rfl 0 (by decide)

/- ------------------------------------------------------------------------
Claims about the workspace store.
------------------------------------------------------------------------- -/

/-- C2: the invariant (focus in range whenever non-empty, count at most 6)
holds for every workspace after initialization and is preserved by each of the
four mutation operations on any state satisfying it. -/
theorem C2_invariant_preserved :
    (∀ W H i, WSInv ((startup_state W H).workspaces i)) ∧
    (∀ s title, WSInv (activeWs s) →
      WSInv (activeWs (add_window_to_current_workspace s title).1)) ∧
    (∀ s, WSInv (activeWs s) → WSInv (activeWs (close_current_window s).1)) ∧
    (∀ s d, WSInv (activeWs s) → WSInv (activeWs (cycle_focus s d).1)) ∧
    (∀ s, WSInv (activeWs s) → WSInv (activeWs (cycle_layout s).1)) := by
  refine ⟨?_, ?_, ?_, ?_, ?_⟩
  · intro W H i
    simp [WSInv, startup_state, initWorkspace, MAX_WINDOWS_PER_WORKSPACE]
  · intro s title h
    simp only [add_window_to_current_workspace]
    by_cases hc : (activeWs s).window_count ≥ MAX_WINDOWS_PER_WORKSPACE
    · rw [if_pos hc]
      exact h
    · rw [if_neg hc]
      rw [activeWs_redraw_update]
      simp only [WSInv, MAX_WINDOWS_PER_WORKSPACE] at *
      omega
  · intro s h
    simp only [close_current_window]
    by_cases hc : (activeWs s).window_count = 0
    · rw [if_pos hc]
      exact h
    · rw [if_neg hc]
      rw [activeWs_redraw_update]
      simp only [WSInv, MAX_WINDOWS_PER_WORKSPACE] at *
      constructor
      · intro hpos
        split_ifs with h1 h2 <;> omega
      · omega
  · intro s d h
    simp only [cycle_focus]
    by_cases hc : (activeWs s).window_count = 0
    · rw [if_pos hc]
      exact h
    · rw [if_neg hc]
      rw [activeWs_redraw_update]
      simp only [WSInv, MAX_WINDOWS_PER_WORKSPACE] at *
      constructor
      · intro hpos
        split_ifs <;> exact Nat.mod_lt _ (by omega)
      · omega
  · intro s h
    simp only [cycle_layout]
    rw [activeWs_redraw_update]
    simp only [WSInv, MAX_WINDOWS_PER_WORKSPACE] at *
    exact h


/-- C2 witness: the invariant holds after adding a window to the freshly
initialized state. -/
theorem C2_invariant_preserved_witness :
    WSInv (activeWs
      (add_window_to_current_workspace (startup_state 640 480) sampleTitle).1) :=
  C2_invariant_preserved.2.1 (startup_state 640 480) sampleTitle
    ⟨fun h => absurd h (by decide), by decide⟩

/-- C5: on a non-empty workspace with an in-range focus, closing removes
exactly the focused slot (later windows shift one position left, earlier ones
stay), decrements the count, and re-clamps the focus: 0 when the workspace
becomes empty, the new last index when the old focus falls off the end,
unchanged otherwise. -/
theorem C5_close_window_semantics (s : SysState)
    (h0 : 0 < (activeWs s).window_count)
    (h1 : (activeWs s).focused_window_index < (activeWs s).window_count) :
    (activeWs (close_current_window s).1).window_count
        = (activeWs s).window_count - 1 ∧
    (∀ j, j < (activeWs s).focused_window_index →
      (activeWs (close_current_window s).1).windows j
        = (activeWs s).windows j) ∧
    (∀ j, (activeWs s).focused_window_index ≤ j →
        j < (activeWs s).window_count - 1 →
      (activeWs (close_current_window s).1).windows j
        = (activeWs s).windows (j + 1)) ∧
    ((activeWs s).window_count = 1 →
      (activeWs (close_current_window s).1).focused_window_index = 0) ∧
    (1 < (activeWs s).window_count →
      (activeWs s).window_count - 1 ≤ (activeWs s).focused_window_index →
      (activeWs (close_current_window s).1).focused_window_index
        = (activeWs s).window_count - 1 - 1) ∧
    (1 < (activeWs s).window_count →
      (activeWs s).focused_window_index < (activeWs s).window_count - 1 →
      (activeWs (close_current_window s).1).focused_window_index
        = (activeWs s).focused_window_index) := by
  simp only [close_current_window]
  rw [if_neg (by omega)]
  rw [activeWs_redraw_update]
  refine ⟨rfl, ?_, ?_, ?_, ?_, ?_⟩
  · intro j hj
    show (if (activeWs s).focused_window_index ≤ j ∧
        j < (activeWs s).window_count - 1 then (activeWs s).windows (j + 1)
      else (activeWs s).windows j) = (activeWs s).windows j
    rw [if_neg (by omega)]
  · intro j hj1 hj2
    show (if (activeWs s).focused_window_index ≤ j ∧
        j < (activeWs s).window_count - 1 then (activeWs s).windows (j + 1)
      else (activeWs s).windows j) = (activeWs s).windows (j + 1)
    rw [if_pos ⟨hj1, hj2⟩]
  · intro hc
    show (if (activeWs s).window_count - 1 = 0 then 0
      else if (activeWs s).focused_window_index ≥ (activeWs s).window_count - 1
        then (activeWs s).window_count - 1 - 1
        else (activeWs s).focused_window_index) = 0
    rw [if_pos (by omega)]
  · intro hc hf
    show (if (activeWs s).window_count - 1 = 0 then 0
      else if (activeWs s).focused_window_index ≥ (activeWs s).window_count - 1
        then (activeWs s).window_count - 1 - 1
        else (activeWs s).focused_window_index)
      = (activeWs s).window_count - 1 - 1
    rw [if_neg (by omega), if_pos (by omega)]
  · intro hc hf
    show (if (activeWs s).window_count - 1 = 0 then 0
      else if (activeWs s).focused_window_index ≥ (activeWs s).window_count - 1
        then (activeWs s).window_count - 1 - 1
        else (activeWs s).focused_window_index)
      = (activeWs s).focused_window_index
    rw [if_neg (by omega), if_neg (by omega)]

/-- C5 witness: closing focus index 1 of 3 leaves 2 windows, keeps the old
window 0 at index 0, moves the old window 2 to index 1, and keeps focus 1. -/
theorem C5_close_window_semantics_witness :
    (activeWs (close_current_window sThree).1).window_count = 2 ∧
    (activeWs (close_current_window sThree).1).windows 0
      = (activeWs sThree).windows 0 ∧
    (activeWs (close_current_window sThree).1).windows 1
      = (activeWs sThree).windows 2 ∧
    (activeWs (close_current_window sThree).1).focused_window_index = 1 :=
  ⟨(C5_close_window_semantics sThree (by decide) (by decide)).1,
   (C5_close_window_semantics sThree (by decide) (by decide)).2.1 0 (by decide),
   (C5_close_window_semantics sThree (by decide) (by decide)).2.2.1 1
     (by decide) (by decide),
   (C5_close_window_semantics sThree (by decide) (by decide)).2.2.2.2.2
     (by decide) (by decide)⟩

/-- The active workspace after `cycle_layout`: the layout is replaced by the
next variant's compiled-in default and nothing else changes. -/
theorem cycle_layout_activeWs (s : SysState) :
    activeWs (cycle_layout s).1 =
      { activeWs s with
          layout := DEFAULT_LAYOUTS (next_layout (activeWs s).layout.type) } := by
  simp only [cycle_layout]
  rw [activeWs_redraw_update]

/-- C7: `cycle_layout` advances Horizontal → Vertical → Grid → Fullscreen →
Master-Stack → Horizontal, each call installing the next variant's compiled-in
default configuration, so five consecutive calls restore the original variant
with its default configuration. -/
theorem C7_cycle_layout_order :
    next_layout .horizontal = .vertical ∧
    next_layout .vertical = .grid ∧
    next_layout .grid = .fullscreen ∧
    next_layout .fullscreen = .master_stack ∧
    next_layout .master_stack = .horizontal ∧
    (∀ s, (activeWs (cycle_layout s).1).layout =
      DEFAULT_LAYOUTS (next_layout (activeWs s).layout.type)) ∧
    (∀ s,
      (activeWs (cycle_layout (cycle_layout (cycle_layout (cycle_layout
        (cycle_layout s).1).1).1).1).1).layout =
      DEFAULT_LAYOUTS (activeWs s).layout.type) := by
  refine ⟨rfl, rfl, rfl, rfl, rfl, ?_, ?_⟩
  · intro s
    rw [cycle_layout_activeWs]
  · intro s
    simp only [cycle_layout_activeWs]
    generalize (activeWs s).layout.type = t
    cases t <;> rfl

/-- C8: adding a window to a workspace already at the capacity of 6 is a
complete no-op: the entire global state (workspace slots, focus, layout,
snapshot) is returned unchanged and no fill is drawn. -/
theorem C8_add_at_capacity_noop (s : SysState) (title : String)
    (h : (activeWs s).window_count = MAX_WINDOWS_PER_WORKSPACE) :
    add_window_to_current_workspace s title = (s, []) := by
  simp only [add_window_to_current_workspace]
  rw [if_pos h.ge]

/-- C8 witness: adding a seventh window to a full workspace changes nothing
and draws nothing. -/
theorem C8_add_at_capacity_noop_witness :
    add_window_to_current_workspace sFull sampleTitle = (sFull, []) :=
  C8_add_at_capacity_noop sFull sampleTitle rfl

/- ------------------------------------------------------------------------
Claims about the redraw differ.
------------------------------------------------------------------------- -/

/-- C9: right after initialization (all workspaces empty with the Grid
default layout and focus 0, snapshot count 0 / Grid / focus 0), the first
`redraw_incremental` call draws nothing at all — in particular the
empty-desktop indicator is not drawn — and leaves the state unchanged,
because neither the structural nor the focus condition fires. -/
theorem C9_startup_redraw_draws_nothing (W H : Nat) :
    redraw_incremental (startup_state W H) = (startup_state W H, []) := rfl

/-- C4: when the active workspace differs from the snapshot only in the
focus index, the differ emits exactly two window frames — the old focus with
the plain border, the new focus with the focused border — and of the snapshot
it updates only the focus index (positions, count and variant are kept). -/
theorem C4_focus_only_redraw (s : SysState)
    (hc : (activeWs s).window_count = s.prev_window_count)
    (hl : (activeWs s).layout.type = s.prev_layout)
    (hf : (activeWs s).focused_window_index ≠ s.prev_focused)
    (hpf : s.prev_focused < (activeWs s).window_count)
    (hff : (activeWs s).focused_window_index < (activeWs s).window_count) :
    (redraw_incremental s).2 =
      draw_window_frame ((compute_window_positions s.fb_width s.fb_height
          (activeWs s).window_count (activeWs s).layout).getD s.prev_focused
          zeroWindowPos)
        (activeWs s).layout.border_size (activeWs s).layout.border_color
        false ++
      draw_window_frame ((compute_window_positions s.fb_width s.fb_height
          (activeWs s).window_count (activeWs s).layout).getD
          (activeWs s).focused_window_index zeroWindowPos)
        (activeWs s).layout.border_size (activeWs s).layout.border_color
        true ∧
    (redraw_incremental s).1 =
      { s with prev_focused := (activeWs s).focused_window_index } := by
  simp only [redraw_incremental]
  rw [if_neg (by simp [hc, hl]), if_pos hf]
  exact ⟨rfl, rfl⟩

/-- C4 witness: the focus-only redraw on the concrete two-window state. -/
theorem C4_focus_only_redraw_witness :
    (redraw_incremental sTwo).2 =
      draw_window_frame ((compute_window_positions sTwo.fb_width sTwo.fb_height
          (activeWs sTwo).window_count (activeWs sTwo).layout).getD
          sTwo.prev_focused zeroWindowPos)
        (activeWs sTwo).layout.border_size (activeWs sTwo).layout.border_color
        false ++
      draw_window_frame ((compute_window_positions sTwo.fb_width sTwo.fb_height
          (activeWs sTwo).window_count (activeWs sTwo).layout).getD
          (activeWs sTwo).focused_window_index zeroWindowPos)
        (activeWs sTwo).layout.border_size (activeWs sTwo).layout.border_color
        true ∧
    (redraw_incremental sTwo).1 =
      { sTwo with prev_focused := (activeWs sTwo).focused_window_index } :=
  C4_focus_only_redraw sTwo rfl rfl (by decide) (by decide) (by decide)

/-- C10: on a structural change whose snapshot count is 0 (empty workspace
becoming non-empty), the erase phase issues zero fills: the emitted trace is
exactly the newly drawn window frames, so nothing painted for the
empty-desktop indicator is ever erased. -/
theorem C10_no_erase_from_empty_snapshot (s : SysState)
    (h0 : s.prev_window_count = 0)
    (h1 : (activeWs s).window_count ≠ 0) :
    (redraw_incremental s).2 =
      ((List.range (activeWs s).window_count).map (fun i =>
        draw_window_frame
          ((compute_window_positions s.fb_width s.fb_height
              (activeWs s).window_count (activeWs s).layout).getD i
              zeroWindowPos)
          (activeWs s).layout.border_size (activeWs s).layout.border_color
          (i = (activeWs s).focused_window_index))).flatten := by
  simp only [redraw_incremental]
  rw [if_pos (Or.inl (by rw [h0]; exact h1)), if_neg h1, h0]
  simp

/-- C10 witness: drawing one window over an empty snapshot erases nothing. -/
theorem C10_no_erase_from_empty_snapshot_witness :
    (redraw_incremental sOne).2 =
      ((List.range (activeWs sOne).window_count).map (fun i =>
        draw_window_frame
          ((compute_window_positions sOne.fb_width sOne.fb_height
              (activeWs sOne).window_count (activeWs sOne).layout).getD i
              zeroWindowPos)
          (activeWs sOne).layout.border_size (activeWs sOne).layout.border_color
          (i = (activeWs sOne).focused_window_index))).flatten :=
  C10_no_erase_from_empty_snapshot sOne rfl (by decide)
